import Mathlib

/-!
Shallow embedding of the helper logic in
`src/llama_index_search_and_retrieval_tutorial.ipynb`:
binary-response parsing, the precision@k accumulator loop, centroid
centering of embedding vectors, the retry-wrapped evaluation call, and
`load_llama_index_database_into_dataframe`.  Floating-point values are
modelled as exact rationals; Python strings are modelled over their ASCII
character content.
-/

/-- The ASCII whitespace characters removed by Python `str.strip()`. -/
def isPySpace (c : Char) : Bool :=
  c = ' ' || c = '\t' || c = '\n' || c = '\r' || c = '\x0b' || c = '\x0c'

/-- Python `str.strip()` on a character list: drop whitespace at both ends. -/
def pyStrip (cs : List Char) : List Char :=
  ((cs.dropWhile isPySpace).reverse.dropWhile isPySpace).reverse

/-- Digits after the first one in a Python integer literal: decimal digits,
with single underscores allowed only between two digits. -/
def pyDigitsRest : List Char → Nat → Option Nat
  | [], acc => some acc
  | ['_'], _ => none
  | '_' :: d :: rest, acc =>
    if d.isDigit then pyDigitsRest rest (acc * 10 + (d.toNat - 48)) else none
  | c :: rest, acc =>
    if c.isDigit then pyDigitsRest rest (acc * 10 + (c.toNat - 48)) else none

/-- A nonempty run of decimal digits with internal underscores, as accepted
by Python `int` after the optional sign. -/
def pyDigits : List Char → Option Nat
  | [] => none
  | c :: rest => if c.isDigit then pyDigitsRest rest (c.toNat - 48) else none

/-- Python `int(s)` on an already-stripped character list: an optional
sign `+`/`-` followed by digits (underscores between digits allowed). -/
def pyIntOfChars (cs : List Char) : Option Int :=
  match cs with
  | '+' :: rest => (pyDigits rest).map (fun n => (n : Int))
  | '-' :: rest => (pyDigits rest).map (fun n => -(n : Int))
  | _ => (pyDigits cs).map (fun n => (n : Int))

/-- `int(binary_response.strip())` from `process_binary_responses`. -/
def pyIntOfString (s : String) : Option Int :=
  pyIntOfChars (pyStrip s.data)

/-- The `binary_to_string_map` argument passed in the notebook. -/
def map01 : List (Int × String) :=
  [(0, "irrelevant"), (1, "relevant")]

/-- One iteration of the loop body of `process_binary_responses`:
`try: binary_value = int(binary_response.strip());
processed_response = binary_to_string_map[binary_value]
except (ValueError, KeyError): processed_response = None`. -/
def processOne (binary_response : String) (binary_to_string_map : List (Int × String)) :
    Option String :=
  match pyIntOfString binary_response with
  | none => none
  | some binary_value => binary_to_string_map.lookup binary_value

/-- `process_binary_responses`: start from an empty list and append the
processed value for each response in order. -/
def process_binary_responses (binary_responses : List String)
    (binary_to_string_map : List (Int × String)) : List (Option String) :=
  binary_responses.foldl
    (fun processed_responses binary_response =>
      processed_responses ++ [processOne binary_response binary_to_string_map])
    []

/-- `int(x == "relevant")` from the precision@k cell: an unparsed (`None`)
or `"irrelevant"` cell contributes 0, a `"relevant"` cell contributes 1. -/
def relevanceIndicator (x : Option String) : Nat :=
  if x = some "relevant" then 1 else 0

/-- `num_retrieved_documents = retrieved_context_index + 1`, the divisor used
for precision@k in the accumulator loop. -/
def precisionDivisor (retrieved_context_index : Nat) : Nat :=
  retrieved_context_index + 1

/-- The precision@k accumulator loop for one row of `query_df`, unrolled over
`retrieved_context_index ∈ range(0, 2)`: a running sum of relevance
indicators divided by `retrieved_context_index + 1` at each step. -/
def precisionLoop2 (relevance_0 relevance_1 : Option String) : ℚ × ℚ :=
  let num_relevant_1 : ℚ := 0 + (relevanceIndicator relevance_0 : ℚ)
  let precision_at_1 := num_relevant_1 / (precisionDivisor 0 : ℚ)
  let num_relevant_2 := num_relevant_1 + (relevanceIndicator relevance_1 : ℚ)
  let precision_at_2 := num_relevant_2 / (precisionDivisor 1 : ℚ)
  (precision_at_1, precision_at_2)

/-- Number of cells equal to `"relevant"` in a list of relevance labels. -/
def countRelevant (labels : List (Option String)) : Nat :=
  (labels.map relevanceIndicator).sum

/-- `query_df["text_vector"].mean()`: the componentwise mean of a collection
of equal-dimension vectors (entries modelled as exact rationals). -/
def vecMean (d : Nat) (vs : List (Fin d → ℚ)) : Fin d → ℚ :=
  fun i => (vs.map (fun v => v i)).sum / (vs.length : ℚ)

/-- The `centered_text_vector` computation:
`df["text_vector"].apply(lambda x: x - centroid)` with the centroid
`df["text_vector"].mean()`. -/
def centerVectors (d : Nat) (vs : List (Fin d → ℚ)) : List (Fin d → ℚ) :=
  vs.map (fun x => fun i => x i - vecMean d vs i)

/-- Modelled from the spec: the external retry combinator
(`stop=stop_after_attempt(6)`) applied to the evaluation call.  `attempts i`
is the outcome of the `(i+1)`-th call of the wrapped function (a result or a
raised exception); `fuel` counts the retries still allowed.  A successful
call returns immediately; a failing call is retried until the attempt bound
is exhausted, after which its exception is surfaced. -/
def retryGo (attempts : Nat → Except String String) : Nat → Nat → Except String String
  | i, 0 => attempts i
  | i, fuel + 1 =>
    match attempts i with
    | Except.ok a => Except.ok a
    | Except.error _ => retryGo attempts (i + 1) fuel

/-- Modelled from the spec: run the wrapped call with a bound of
`maxAttempts` total attempts. -/
def retryCall (maxAttempts : Nat) (attempts : Nat → Except String String) :
    Except String String :=
  retryGo attempts 0 (maxAttempts - 1)

/-- `evaluate_query_and_retrieved_context` under its
`@retry(wait=wait_random_exponential(min=1, max=60), stop=stop_after_attempt(6))`
decorator: the body is a single outbound API call, modelled as the oracle
`attempts`, and the decorator bounds it to 6 attempts. -/
def evaluate_query_and_retrieved_context (attempts : Nat → Except String String) :
    Except String String :=
  retryCall 6 attempts

/-- Modelled from the spec: `wait_random_exponential(min=1, max=60)` produces
a randomized wait clamped to the interval `[min, max]`; `sample` stands for
the randomized exponential-backoff draw. -/
def wait_random_exponential (lo hi sample : ℚ) : ℚ :=
  max lo (min hi sample)

/-- `load_llama_index_database_into_dataframe`, one loop iteration per
`doc_id` of `docstore["docstore/data"]` (an insertion-ordered dict, modelled
as an association list from `doc_id` to the entry text): append the entry
text and the `vector_store["embedding_dict"]` vector of the same `doc_id`.
A `doc_id` missing from the embedding dict raises a `KeyError`, modelled as
`none`. -/
def loadRows (docstore : List (String × String))
    (embedding_dict : List (String × List ℚ)) : Option (List (String × List ℚ)) :=
  match docstore with
  | [] => some []
  | (doc_id, text) :: rest =>
    match embedding_dict.lookup doc_id, loadRows rest embedding_dict with
    | some v, some rows => some ((text, v) :: rows)
    | _, _ => none

/-- The dataframe returned by `load_llama_index_database_into_dataframe`:
the `text` column and the `text_vector` column. -/
def load_llama_index_database_into_dataframe (docstore : List (String × String))
    (embedding_dict : List (String × List ℚ)) :
    Option (List String × List (List ℚ)) :=
  match loadRows docstore embedding_dict with
  | none => none
  | some rows => some (rows.map Prod.fst, rows.map Prod.snd)

theorem foldl_append_processOne (m : List (Int × String)) (rs : List String) :
    ∀ acc : List (Option String),
      rs.foldl (fun a r => a ++ [processOne r m]) acc
        = acc ++ rs.map (fun r => processOne r m) := by
  induction rs with
  | nil => intro acc; simp
  | cons r rs ih => intro acc; simp [List.foldl_cons, ih]

theorem process_eq_map (rs : List String) (m : List (Int × String)) :
    process_binary_responses rs m = rs.map (fun r => processOne r m) := by
  simpa [process_binary_responses] using foldl_append_processOne m rs []

theorem lookup_map01 (v : Int) :
    map01.lookup v
      = if v = 0 then some "irrelevant" else if v = 1 then some "relevant" else none := by
  by_cases h0 : v = 0
  · subst h0; rfl
  · by_cases h1 : v = 1
    · subst h1; rfl
    · have e0 : (v == (0 : Int)) = false := beq_eq_false_iff_ne.mpr h0
      have e1 : (v == (1 : Int)) = false := beq_eq_false_iff_ne.mpr h1
      simp [map01, List.lookup, e0, e1, h0, h1]

/-- C7: `process_binary_responses` is an order-preserving elementwise map:
the output has exactly the length of the input and its element at each index
is determined solely by the input string at that index, with no element
dropped or added even when parsing fails. -/
theorem C7_process_binary_responses_elementwise
    (binary_responses : List String) (binary_to_string_map : List (Int × String)) :
    process_binary_responses binary_responses binary_to_string_map
        = binary_responses.map (fun r => processOne r binary_to_string_map)
    ∧ (process_binary_responses binary_responses binary_to_string_map).length
        = binary_responses.length := by
  refine ⟨process_eq_map .., ?_⟩
  rw [process_eq_map]
  exact List.length_map ..

/-- C1 counterexample: the claim says every input other than `"0"` or `"1"`
surrounded by whitespace yields the unknown marker `None`, but the input
`"+1"` is neither and is mapped to `"relevant"`. -/
theorem C1_counterexample :
    process_binary_responses ["+1"] map01 = [some "relevant"]
    ∧ process_binary_responses ["+1"] map01 ≠ [none] := by
  refine ⟨rfl, ?_⟩
  intro h
  rw [show process_binary_responses ["+1"] map01 = [some "relevant"] from rfl] at h
  simp at h

/-- C1 (amended): with the map {0 ↦ "irrelevant", 1 ↦ "relevant"},
`process_binary_responses` maps each response whose whitespace-stripped
content Python-int-parses to 0 or 1 to the corresponding label, and returns
the unknown marker `None` for every other input; in particular `" 1 "` maps
to `"relevant"` while `"yes"` and `""` map to `None`. -/
theorem C1_process_binary_responses_amended (binary_responses : List String) :
    process_binary_responses binary_responses map01
      = binary_responses.map (fun r =>
          match pyIntOfString r with
          | none => none
          | some v => if v = 0 then some "irrelevant"
              else if v = 1 then some "relevant" else none)
    ∧ process_binary_responses [" 1 ", "0", "1", "yes", ""] map01
      = [some "relevant", some "irrelevant", some "relevant", none, none] := by
  constructor
  · rw [process_eq_map]
    apply List.map_congr_left
    intro r _
    unfold processOne
    cases h : pyIntOfString r with
    | none => rfl
    | some v => simp [lookup_map01 v]
  · rfl

/-- C8: any input whose stripped content is accepted by Python integer
parsing with value 0 or 1 — including non-canonical forms such as `"+1"`,
`"01"`, or `"1\n"` — is mapped to a label rather than to `None`; only inputs
that fail integer parsing or parse to a value outside the map keys yield the
unknown marker. -/
theorem C8_noncanonical_numerals_mapped :
    process_binary_responses ["+1", "01", "1\n", "0_0"] map01
      = [some "relevant", some "relevant", some "relevant", some "irrelevant"]
    ∧ (∀ r : String, processOne r map01 = none ↔
        (pyIntOfString r = none
          ∨ ∃ v, pyIntOfString r = some v ∧ v ≠ 0 ∧ v ≠ 1)) := by
  refine ⟨rfl, ?_⟩
  intro r
  unfold processOne
  cases h : pyIntOfString r with
  | none => simp
  | some v =>
    by_cases h0 : v = 0 <;> by_cases h1 : v = 1 <;>
      simp [lookup_map01 v, h0, h1] <;> simp [map01]

theorem relevanceIndicator_relevant : relevanceIndicator (some "relevant") = 1 := by
  decide

theorem relevanceIndicator_irrelevant : relevanceIndicator (some "irrelevant") = 0 := by
  decide

theorem relevanceIndicator_none : relevanceIndicator none = 0 := rfl

/-- C2: for k ∈ {1, 2}, the precision@k value computed by the running-sum
loop equals the number of labels equal to `"relevant"` among the first k
divided by k; the sequence [relevant, irrelevant] yields precision@1 = 1 and
precision@2 = 1/2. -/
theorem C2_precision_at_k (relevance_0 relevance_1 : Option String) :
    (precisionLoop2 relevance_0 relevance_1).1
        = (countRelevant ([relevance_0, relevance_1].take 1) : ℚ) / 1
    ∧ (precisionLoop2 relevance_0 relevance_1).2
        = (countRelevant ([relevance_0, relevance_1].take 2) : ℚ) / 2
    ∧ precisionLoop2 (some "relevant") (some "irrelevant") = (1, 1 / 2) := by
  refine ⟨?_, ?_, ?_⟩
  · simp [precisionLoop2, countRelevant, precisionDivisor]
  · simp [precisionLoop2, countRelevant, precisionDivisor]
  · norm_num [precisionLoop2, precisionDivisor,
      relevanceIndicator_relevant, relevanceIndicator_irrelevant]

/-- C6: the divisor in the precision@k accumulator loop is always
`retrieved_context_index + 1`, which is positive for every index and takes
the values 1 and 2 over the two indices used, so the division computing
precision@k never divides by zero. -/
theorem C6_divisor_never_zero :
    (∀ i : Nat, 0 < precisionDivisor i)
    ∧ (List.range 2).map precisionDivisor = [1, 2]
    ∧ (precisionDivisor 0 : ℚ) ≠ 0 ∧ (precisionDivisor 1 : ℚ) ≠ 0 := by
  refine ⟨fun i => Nat.succ_pos i, rfl, ?_, ?_⟩ <;> norm_num [precisionDivisor]

/-- C9: a relevance cell holding the unknown marker `None` contributes 0 to
the running relevant count exactly as `"irrelevant"` does — only cells equal
to `"relevant"` increase the count — so unparseable evaluations lower
precision@k rather than being excluded from it. -/
theorem C9_none_counts_as_zero :
    (∀ x : Option String, x ≠ some "relevant" → relevanceIndicator x = 0)
    ∧ relevanceIndicator none = relevanceIndicator (some "irrelevant")
    ∧ precisionLoop2 none (some "relevant")
        = precisionLoop2 (some "irrelevant") (some "relevant")
    ∧ precisionLoop2 none (some "relevant") = (0, 1 / 2) := by
  refine ⟨?_, rfl, rfl, ?_⟩
  · intro x hx
    simp [relevanceIndicator, hx]
  · norm_num [precisionLoop2, precisionDivisor,
      relevanceIndicator_none, relevanceIndicator_relevant]

/-- C9 witness: the unknown marker contributes 0 at a concrete input. -/
theorem C9_none_counts_as_zero_witness :
    relevanceIndicator none = 0 ∧ precisionLoop2 none (some "relevant") = (0, 1 / 2) :=
  ⟨C9_none_counts_as_zero.1 none (by simp), C9_none_counts_as_zero.2.2.2⟩

theorem sum_map_sub_const {α : Type} (l : List α) (f : α → ℚ) (c : ℚ) :
    (l.map (fun x => f x - c)).sum = (l.map f).sum - l.length * c := by
  induction l with
  | nil => simp
  | cons a l ih =>
    simp [ih]
    ring

/-- C3: subtracting the mean vector of a non-empty collection of
equal-dimension vectors from each member, as in the `centered_text_vector`
computation, yields a collection whose mean is the zero vector. -/
theorem C3_centering_zero_mean (d : Nat) (vs : List (Fin d → ℚ)) (h : vs ≠ []) :
    vecMean d (centerVectors d vs) = fun _ => 0 := by
  funext i
  have hn : (vs.length : ℚ) ≠ 0 := by
    have : vs.length ≠ 0 := fun h0 => h (List.length_eq_zero.mp h0)
    exact_mod_cast this
  show ((centerVectors d vs).map (fun v => v i)).sum / ((centerVectors d vs).length : ℚ) = 0
  rw [centerVectors, List.map_map, List.length_map]
  simp only [Function.comp_def]
  rw [sum_map_sub_const vs (fun x => x i) (vecMean d vs i)]
  rw [show vecMean d vs i = (vs.map (fun v => v i)).sum / (vs.length : ℚ) from rfl]
  field_simp

/-- C3 witness: centering a concrete one-element collection gives mean 0. -/
theorem C3_centering_zero_mean_witness :
    vecMean 1 (centerVectors 1 [fun _ => (2 : ℚ)]) = fun _ => 0 :=
  C3_centering_zero_mean 1 [fun _ => (2 : ℚ)] (by simp)

theorem retryGo_all_fail (attempts : Nat → Except String String) (e : Nat → String) :
    ∀ fuel i, (∀ k, k ≤ fuel → attempts (i + k) = Except.error (e (i + k))) →
      retryGo attempts i fuel = Except.error (e (i + fuel)) := by
  intro fuel
  induction fuel with
  | zero =>
    intro i h
    simpa [retryGo] using h 0 (Nat.le_refl 0)
  | succ fuel ih =>
    intro i h
    have h0 := h 0 (Nat.zero_le _)
    rw [Nat.add_zero] at h0
    have hrec := ih (i + 1) (fun k hk => by
      have hk1 := h (k + 1) (by omega)
      rw [show i + (k + 1) = i + 1 + k by omega] at hk1
      exact hk1)
    simp only [retryGo, h0]
    rw [hrec, show i + 1 + fuel = i + (fuel + 1) by omega]

theorem retryGo_success (attempts : Nat → Except String String) (a : String) :
    ∀ fuel i j, j ≤ fuel → attempts (i + j) = Except.ok a →
      (∀ k, k < j → ∃ err, attempts (i + k) = Except.error err) →
      retryGo attempts i fuel = Except.ok a := by
  intro fuel
  induction fuel with
  | zero =>
    intro i j hj hok _
    have hj0 : j = 0 := by omega
    subst hj0
    rw [Nat.add_zero] at hok
    simpa [retryGo] using hok
  | succ fuel ih =>
    intro i j hj hok hfail
    cases j with
    | zero =>
      rw [Nat.add_zero] at hok
      simp only [retryGo, hok]
    | succ j =>
      obtain ⟨err, herr⟩ := hfail 0 (Nat.succ_pos j)
      rw [Nat.add_zero] at herr
      simp only [retryGo, herr]
      refine ih (i + 1) j (by omega) ?_ ?_
      · rw [show i + 1 + j = i + (j + 1) by omega]
        exact hok
      · intro k hk
        obtain ⟨err2, he2⟩ := hfail (k + 1) (by omega)
        exact ⟨err2, by rw [show i + 1 + k = i + (k + 1) by omega]; exact he2⟩

theorem retryGo_congr (attempts attempts2 : Nat → Except String String) :
    ∀ fuel i, (∀ k, k ≤ fuel → attempts2 (i + k) = attempts (i + k)) →
      retryGo attempts2 i fuel = retryGo attempts i fuel := by
  intro fuel
  induction fuel with
  | zero =>
    intro i h
    simpa [retryGo] using h 0 (Nat.le_refl 0)
  | succ fuel ih =>
    intro i h
    have h0 := h 0 (Nat.zero_le _)
    rw [Nat.add_zero] at h0
    simp only [retryGo, h0]
    cases hcase : attempts i with
    | ok a => rfl
    | error err =>
      exact ih (i + 1) (fun k hk => by
        rw [show i + 1 + k = i + (k + 1) by omega]
        exact h (k + 1) (by omega))

/-- C4: the evaluation call is wrapped in a bounded retry policy: if every
one of the 6 permitted attempts raises, the exception of the final attempt
is surfaced to the caller; if some attempt succeeds (all earlier ones having
raised) its result is returned; the outcome depends only on the first 6
attempts; and the randomized backoff wait of the policy always lies between
1 and 60 seconds. -/
theorem C4_retry_policy (attempts : Nat → Except String String) :
    (∀ e : Nat → String, (∀ i, i < 6 → attempts i = Except.error (e i)) →
        evaluate_query_and_retrieved_context attempts = Except.error (e 5))
    ∧ (∀ j a, j < 6 → attempts j = Except.ok a →
        (∀ i, i < j → ∃ err, attempts i = Except.error err) →
        evaluate_query_and_retrieved_context attempts = Except.ok a)
    ∧ (∀ attempts2 : Nat → Except String String, (∀ i, i < 6 → attempts2 i = attempts i) →
        evaluate_query_and_retrieved_context attempts2
          = evaluate_query_and_retrieved_context attempts)
    ∧ (∀ sample : ℚ, 1 ≤ wait_random_exponential 1 60 sample
        ∧ wait_random_exponential 1 60 sample ≤ 60) := by
  refine ⟨?_, ?_, ?_, ?_⟩
  · intro e h
    have := retryGo_all_fail attempts e 5 0 (fun k hk => by
      simpa using h k (by omega))
    simpa [evaluate_query_and_retrieved_context, retryCall] using this
  · intro j a hj hok hfail
    have := retryGo_success attempts a 5 0 j (by omega) (by simpa using hok)
      (fun k hk => by simpa using hfail k hk)
    simpa [evaluate_query_and_retrieved_context, retryCall] using this
  · intro attempts2 h
    have := retryGo_congr attempts attempts2 5 0 (fun k hk => by
      simpa using h k (by omega))
    simpa [evaluate_query_and_retrieved_context, retryCall] using this
  · intro sample
    constructor
    · exact le_max_left 1 (min 60 sample)
    · exact max_le (by norm_num) (min_le_left 60 sample)

/-- C4 witness: a call that always raises surfaces the exception, and a call
that raises once and then succeeds returns the successful result; a concrete
backoff sample is clamped into [1, 60]. -/
theorem C4_retry_policy_witness :
    evaluate_query_and_retrieved_context (fun _ => Except.error "boom")
        = Except.error "boom"
    ∧ evaluate_query_and_retrieved_context
        (fun i => if i = 0 then Except.error "boom" else Except.ok "1")
        = Except.ok "1"
    ∧ 1 ≤ wait_random_exponential 1 60 (70 : ℚ)
    ∧ wait_random_exponential 1 60 (70 : ℚ) ≤ 60 := by
  refine ⟨?_, ?_, ?_⟩
  · exact (C4_retry_policy (fun _ => Except.error "boom")).1
      (fun _ => "boom") (fun i _ => rfl)
  · exact (C4_retry_policy _).2.1 1 "1" (by omega) rfl
      (fun i hi => ⟨"boom", by rw [show i = 0 by omega]; rfl⟩)
  · exact (C4_retry_policy (fun _ => Except.ok "")).2.2.2 70

theorem loadRows_spec (embedding_dict : List (String × List ℚ)) :
    ∀ (docstore : List (String × String)) (rows : List (String × List ℚ)),
      loadRows docstore embedding_dict = some rows →
      rows.length = docstore.length
      ∧ ∀ i (hi : i < docstore.length),
          rows[i]? = (embedding_dict.lookup (docstore.get ⟨i, hi⟩).1).map
            (fun v => ((docstore.get ⟨i, hi⟩).2, v)) := by
  intro docstore
  induction docstore with
  | nil =>
    intro rows h
    simp [loadRows] at h
    subst h
    exact ⟨rfl, fun i hi => absurd hi (by simp)⟩
  | cons p rest ih =>
    intro rows h
    obtain ⟨doc_id, text⟩ := p
    rw [loadRows] at h
    cases hl : embedding_dict.lookup doc_id with
    | none =>
      rw [hl] at h
      simp at h
    | some v =>
      rw [hl] at h
      cases hr : loadRows rest embedding_dict with
      | none =>
        rw [hr] at h
        simp at h
      | some rs =>
        rw [hr] at h
        simp at h
        subst h
        obtain ⟨hlen, hidx⟩ := ih rs hr
        refine ⟨by simp [hlen], ?_⟩
        intro i hi
        cases i with
        | zero => simp [hl]
        | succ i =>
          have hi2 : i < rest.length := by
            simpa using Nat.lt_of_succ_lt_succ hi
          simpa using hidx i hi2

/-- C5: whenever `load_llama_index_database_into_dataframe` returns a
dataframe, its `text` and `text_vector` columns have equal length and, for
every row index, the text and the embedding vector at that index were taken
from the same `doc_id` of the docstore. -/
theorem C5_dataframe_columns_aligned (docstore : List (String × String))
    (embedding_dict : List (String × List ℚ))
    (texts : List String) (vectors : List (List ℚ))
    (h : load_llama_index_database_into_dataframe docstore embedding_dict
        = some (texts, vectors)) :
    texts.length = vectors.length
    ∧ texts.length = docstore.length
    ∧ ∀ i (hi : i < docstore.length),
        texts[i]? = some (docstore.get ⟨i, hi⟩).2
        ∧ vectors[i]? = embedding_dict.lookup (docstore.get ⟨i, hi⟩).1 := by
  unfold load_llama_index_database_into_dataframe at h
  cases hr : loadRows docstore embedding_dict with
  | none =>
    rw [hr] at h
    simp at h
  | some rows =>
    rw [hr] at h
    simp at h
    obtain ⟨ht, hv⟩ := h
    subst ht
    subst hv
    obtain ⟨hlen, hidx⟩ := loadRows_spec embedding_dict docstore rows hr
    refine ⟨by simp, by simp [hlen], ?_⟩
    intro i hi
    have hrowi := hidx i hi
    cases hl : embedding_dict.lookup (docstore.get ⟨i, hi⟩).1 with
    | none =>
      rw [hl] at hrowi
      simp at hrowi
      exfalso
      omega
    | some v =>
      rw [hl] at hrowi
      simp at hrowi
      constructor
      · rw [List.getElem?_map, hrowi]
        rfl
      · rw [List.getElem?_map, hrowi]
        rfl

/-- C5 witness: the alignment holds on a concrete docstore and embedding
dict. -/
theorem C5_dataframe_columns_aligned_witness :
    (["ta", "tb"] : List String).length = ([[(1 : ℚ)], [2]] : List (List ℚ)).length :=
  (C5_dataframe_columns_aligned [("a", "ta"), ("b", "tb")] [("b", [2]), ("a", [1])]
    ["ta", "tb"] [[1], [2]] rfl).1
